import Mathlib

/-!
Verification development for the `origami-workshop` build watcher
(`src/index.js`).  The program watches three source files (an HTML entry
point, a Sass stylesheet and a JavaScript entry module), rebuilds each to a
`public/` output directory on change, and reports build status through an
in-place updating status display (`spinnies`).

The embedding below mirrors the change handler registered at
`chokidar.watch([index, sass, js]).on('all', ...)` (src/index.js lines
68-185), the error-classifying catch block (lines 172-184), the Sass
charset workaround (lines 118-121), the HTML copy-error mapping (lines
164-168) and the startup missing-index check (lines 56-61).  External
tools (the Sass compiler subprocess, PostCSS, esbuild, the filesystem) are
environment inputs: their results are parameters of the embedded
functions, exactly at the interface boundary the program observes.
-/

namespace Origami

/-! ## Substring machinery

`isPre pat l` decides whether `pat` is a prefix of `l`; `hasSub pat l`
decides whether `pat` occurs as a contiguous substring of `l`.  These are
used to state "the status text contains `error building P`" claims. -/

def isPre : List Char → List Char → Bool
  | [], _ => true
  | _ :: _, [] => false
  | a :: as, b :: bs => decide (a = b) && isPre as bs

def hasSub (pat : List Char) : List Char → Bool
  | [] => pat.isEmpty
  | c :: t => isPre pat (c :: t) || hasSub pat t

/-- String-level substring test: `hasSubS s pat` holds when `pat` occurs in `s`. -/
def hasSubS (s pat : String) : Bool :=
  hasSub pat.data s.data

/-! ## JavaScript error values

A JavaScript error object as the catch block at src/index.js:172-184
inspects it.  Fields that are absent on a given error object in JS
(e.g. `failed` on a plain `Error`, `stderr` on an esbuild error) are
falsy there; absence is modelled as `false` / `""`. -/

structure JsError where
  isCanceled : Bool := false
  failed : Bool := false
  stderr : String := ""
  stdout : String := ""
  message : String := ""
  code : String := ""
  path : String := ""
deriving DecidableEq, Repr

/-- JavaScript `a || b` on strings: the empty string is falsy. -/
def jsOr (a b : String) : String :=
  if a = "" then b else a

/-- Observable actions of the handler: spinner notices (`spinnies.add` /
`spinnies.update`), spinner removal (`spinnies.remove`), file writes,
the HTML copy, pipeline invocations, cancellation signals, `console.error`
logging and `process.exit`. -/
inductive Act where
  | notice (file text : String)
  | removeNotice (file : String)
  | write (p contents : String)
  | copy (src dst : String)
  | spawn (id : Nat)
  | cancelSignal (id : Nat)
  | errLog (text : String)
  | exitP (code : Nat)
deriving DecidableEq, Repr

/-- The catch block, src/index.js lines 172-184: a cancelled subprocess is
ignored; a failed subprocess with no stdout and no stderr logs to
`console.error` and exits with status 1; every other error updates the
file's status line with `× error building <file>` and the error's
diagnostic text (`error.stderr || error.stdout || error.message`). -/
def catchActs (file : String) (e : JsError) : List Act :=
  if e.isCanceled then []
  else if e.failed && (decide (e.stderr = "") && decide (e.stdout = "")) then
    [Act.errLog ("There was an unexpected error building " ++ file ++ ":\n\n" ++ e.message),
     Act.exitP 1]
  else
    [Act.notice file ("× error building " ++ file ++ "\n " ++ jsOr (jsOr e.stderr e.stdout) e.message)]

/-! ## The Sass charset workaround (src/index.js lines 118-121)

`css.replace(pat, rep)` with a string pattern in JavaScript replaces only
the first occurrence of `pat`. -/

def replaceFirstList (pat rep : List Char) : List Char → List Char
  | [] => []
  | c :: t =>
    if isPre pat (c :: t) then rep ++ (c :: t).drop pat.length
    else c :: replaceFirstList pat rep t

def charsetPat : String := "application/json;charset=utf-8,"
def charsetRep : String := "application/json,"

/-- The charset workaround applied to compiler output before PostCSS:
`css.replace('application/json;charset=utf-8,', 'application/json,')`. -/
def fixCharset (css : String) : String :=
  ⟨replaceFirstList charsetPat.data charsetRep.data css.data⟩

/-- The HTML copy error mapping, src/index.js lines 164-168: an `ENOTSUP`
error whose `path` is `index.html` is replaced by a plain `Error` with a
clearer message; every other error is rethrown unchanged. -/
def mapCopyError (e : JsError) : JsError :=
  if e.code = "ENOTSUP" ∧ e.path = "index.html" then
    { message := "Could not copy \"index.html\". Is it a file?" }
  else e

/-! ## Watched files and events -/

inductive WFile where
  | html
  | sass
  | js
deriving DecidableEq, Repr

/-- The three watched paths (src/index.js lines 33-35). -/
def fileName : WFile → String
  | .html => "index.html"
  | .sass => "src/main.scss"
  | .js => "src/main.js"

inductive EventKind where
  | add
  | change
  | unlink
deriving DecidableEq, Repr

/-! ## One handler invocation, run to completion in isolation

`BuildEnv` supplies the results of the external tools the handler awaits:
the Sass compiler subprocess's stdout, the PostCSS pass (as a function of
its input CSS), the esbuild bundle and the `copyFileSync` call. -/

structure BuildEnv where
  sassRes : Except JsError String
  postRes : String → Except JsError String
  jsRes : Except JsError Unit
  copyRes : Except JsError Unit

/-- One invocation of the change handler (src/index.js lines 69-184) run
to completion without interference: the building notice, the unlink
branches, the per-file pipeline and the catch block, in source order. -/
def runBuild (k : EventKind) (f : WFile) (env : BuildEnv) : List Act :=
  let fn := fileName f
  let building := Act.notice fn ("- building " ++ fn)
  if (f = .sass ∨ f = .js) ∧ k = .unlink then
    [building, Act.removeNotice fn]
  else if f = .html ∧ k = .unlink then
    [building, Act.notice fn "! missing index.html"]
  else
    building ::
      match f with
      | .sass =>
        match env.sassRes with
        | .error e => catchActs fn e
        | .ok css =>
          match env.postRes (fixCharset css) with
          | .error e => catchActs fn e
          | .ok out =>
            [Act.write "public/main.css" out, Act.notice fn ("√ built " ++ fn)]
      | .js =>
        match env.jsRes with
        | .error e => catchActs fn e
        | .ok _ => [Act.notice fn ("√ built " ++ fn)]
      | .html =>
        match env.copyRes with
        | .error e => catchActs fn (mapCopyError e)
        | .ok _ =>
          [Act.copy "index.html" "public/index.html", Act.notice fn ("√ built " ++ fn)]

/-- An act counts as a terminal status for path `fn` when it is the
success notice `√ built fn`, or a status text or `console.error` line
containing `error building fn`. -/
def terminalFor (fn : String) : Act → Bool
  | .notice f t =>
    decide (f = fn) && (decide (t = "√ built " ++ fn) || hasSubS t ("error building " ++ fn))
  | .errLog t => hasSubS t ("error building " ++ fn)
  | _ => false

/-- The error, if any, on which a completed isolated build lands in the
catch block (for HTML, after the copy error mapping). -/
def overallErr (f : WFile) (env : BuildEnv) : Option JsError :=
  match f with
  | .sass =>
    match env.sassRes with
    | .error e => some e
    | .ok css =>
      match env.postRes (fixCharset css) with
      | .error e => some e
      | .ok _ => none
  | .js =>
    match env.jsRes with
    | .error e => some e
    | .ok _ => none
  | .html =>
    match env.copyRes with
    | .error e => some (mapCopyError e)
    | .ok _ => none

/-- Whether the isolated build settles on a cancellation signal. -/
def buildCanceled (f : WFile) (env : BuildEnv) : Bool :=
  match overallErr f env with
  | some e => e.isCanceled
  | none => false

/-! ## Association lists (for the `subprocesses` map and the spinner) -/

def lookupA {α β : Type} [DecidableEq α] : List (α × β) → α → Option β
  | [], _ => none
  | p :: t, k => if p.1 = k then some p.2 else lookupA t k

def setA {α β : Type} [DecidableEq α] (l : List (α × β)) (k : α) (v : β) : List (α × β) :=
  (k, v) :: l.filter (fun p => decide (p.1 ≠ k))

def removeA {α β : Type} [DecidableEq α] (l : List (α × β)) (k : α) : List (α × β) :=
  l.filter (fun p => decide (p.1 ≠ k))

/-! ## The dispatcher machine

Interleaved execution of the handler: a filesystem event runs the
handler's synchronous prologue (building notice, cancellation of the
registered subprocess, the unlink branches, and starting the pipeline —
for HTML the whole synchronous build); the awaited pipeline stages settle
later as separate steps.  A Sass build has two suspension points: first
the compiler subprocess (`await subprocesses[file]`, cancellable), then
the PostCSS/write stage (unaffected by a cancel signal, since
`cancel()` on an already-settled subprocess is a no-op).  A JS build has
one suspension point (`await esbuild.build(...)`) and is never stored in
`subprocesses` — only the Sass branch assigns `subprocesses[file]`. -/

inductive Stage where
  | sassProc
  | sassPost
  | jsRun
deriving DecidableEq, Repr

structure BTask where
  file : WFile
  stage : Stage
  canceled : Bool
deriving DecidableEq, Repr

structure MState where
  registry : List (WFile × Nat)
  tasks : List (Option BTask)
  spinner : List (String × String)
  acts : List Act
  exited : Bool
deriving DecidableEq, Repr

def MState.init : MState := ⟨[], [], [], [], false⟩

def getTask (s : MState) (id : Nat) : Option BTask :=
  s.tasks.getD id none

def setSlot (s : MState) (id : Nat) (t : Option BTask) : MState :=
  { s with tasks := s.tasks.set id t }

def clearTask (s : MState) (id : Nat) : MState :=
  setSlot s id none

/-- Apply one observable act to the machine state: notices and removals
mutate the spinner, `process.exit` halts the machine, everything is
appended to the act log. -/
def applyAct (s : MState) : Act → MState
  | .notice f t => { s with spinner := setA s.spinner f t, acts := s.acts ++ [.notice f t] }
  | .removeNotice f => { s with spinner := removeA s.spinner f, acts := s.acts ++ [.removeNotice f] }
  | .exitP n => { s with exited := true, acts := s.acts ++ [.exitP n] }
  | a => { s with acts := s.acts ++ [a] }

def applyActs (s : MState) (l : List Act) : MState :=
  l.foldl applyAct s

/-- Lines 78-82: `if (subprocesses[file]) subprocesses[file].cancel()`.
A cancel signal is recorded whenever the registry holds an entry for the
file; if that task is still pending its `canceled` flag is set. -/
def cancelReg (s : MState) (f : WFile) : MState :=
  match lookupA s.registry f with
  | none => s
  | some id =>
    let s := applyAct s (.cancelSignal id)
    match getTask s id with
    | some t => setSlot s id (some { t with canceled := true })
    | none => s

/-- Allocate a fresh pipeline task; only the Sass branch registers its
task in `subprocesses` (line 102: `subprocesses[file] = execa(...)`). -/
def newTask (s : MState) (f : WFile) (st : Stage) (register : Bool) : MState :=
  let id := s.tasks.length
  let s := { s with tasks := s.tasks ++ [some ⟨f, st, false⟩] }
  let s := if register then { s with registry := setA s.registry f id } else s
  applyAct s (.spawn id)

/-- A filesystem event: the handler's synchronous prologue plus, for
HTML, the synchronous copy build (src/index.js lines 69-97, 102, 151,
160-171). -/
def evStep (s : MState) (k : EventKind) (f : WFile) (copyRes : Except JsError Unit) : MState :=
  if s.exited then s
  else
    let fn := fileName f
    let s := applyAct s (.notice fn ("- building " ++ fn))
    let s := cancelReg s f
    if (f = .sass ∨ f = .js) ∧ k = .unlink then applyAct s (.removeNotice fn)
    else if f = .html ∧ k = .unlink then applyAct s (.notice fn "! missing index.html")
    else
      match f with
      | .sass => newTask s .sass .sassProc true
      | .js => newTask s .js .jsRun false
      | .html =>
        match copyRes with
        | .ok _ =>
          applyAct (applyAct s (.copy "index.html" "public/index.html"))
            (.notice fn ("√ built " ++ fn))
        | .error e => applyActs s (catchActs fn (mapCopyError e))

/-- The Sass compiler subprocess settles (line 110).  If the task was
cancelled the promise rejects with `isCanceled` and the catch block
returns silently; on success the build proceeds to the PostCSS stage; on
failure the catch block runs. -/
def sProcStep (s : MState) (id : Nat) (res : Except JsError String) : MState :=
  if s.exited then s
  else
    match getTask s id with
    | some t =>
      if t.file = .sass ∧ t.stage = .sassProc then
        if t.canceled then clearTask s id
        else
          match res with
          | .ok _ => setSlot s id (some { t with stage := .sassPost })
          | .error e => applyActs (clearTask s id) (catchActs (fileName t.file) e)
      else s
    | none => s

/-- The PostCSS pass settles (lines 124-146): on success the CSS is
written to `public/main.css` and the status becomes `√ built`; a cancel
signal received after the subprocess already settled has no effect
here. -/
def sPostStep (s : MState) (id : Nat) (res : Except JsError String) : MState :=
  if s.exited then s
  else
    match getTask s id with
    | some t =>
      if t.file = .sass ∧ t.stage = .sassPost then
        match res with
        | .ok css =>
          applyAct (applyAct (clearTask s id) (.write "public/main.css" css))
            (.notice "src/main.scss" ("√ built " ++ "src/main.scss"))
        | .error e => applyActs (clearTask s id) (catchActs "src/main.scss" e)
      else s
    | none => s

/-- The esbuild bundle settles (lines 151-157). -/
def jsDoneStep (s : MState) (id : Nat) (res : Except JsError Unit) : MState :=
  if s.exited then s
  else
    match getTask s id with
    | some t =>
      if t.file = .js ∧ t.stage = .jsRun then
        match res with
        | .ok _ => applyAct (clearTask s id) (.notice "src/main.js" ("√ built " ++ "src/main.js"))
        | .error e => applyActs (clearTask s id) (catchActs "src/main.js" e)
      else s
    | none => s

inductive MStep where
  | ev (k : EventKind) (f : WFile) (copyRes : Except JsError Unit)
  | sProc (id : Nat) (res : Except JsError String)
  | sPost (id : Nat) (res : Except JsError String)
  | jsDone (id : Nat) (res : Except JsError Unit)

def mstep (s : MState) : MStep → MState
  | .ev k f c => evStep s k f c
  | .sProc id r => sProcStep s id r
  | .sPost id r => sPostStep s id r
  | .jsDone id r => jsDoneStep s id r

def run (s : MState) (l : List MStep) : MState :=
  l.foldl mstep s

/-- Number of live (started, neither settled nor cancelled) build tasks
for a given watched file. -/
def liveTasks (s : MState) (f : WFile) : Nat :=
  s.tasks.countP fun slot =>
    match slot with
    | some t => decide (t.file = f) && !t.canceled
    | none => false

/-- Whether an act is a cancellation signal. -/
def isCancelAct : Act → Bool
  | .cancelSignal _ => true
  | _ => false

/-! ## Startup missing-index check (src/index.js lines 56-61) -/

structure Stats where
  isFile : Bool
deriving DecidableEq, Repr

/-- `fs.existsSync(index) ? fs.statSync(index) : null` followed by
`if (!indexStats || !indexStats.isFile())`. -/
def startupNotice (st : Option Stats) : Bool :=
  match st with
  | none => true
  | some stats => !stats.isFile

/-- The startup acts: the standing notice when no regular file named
`index.html` exists. -/
def startupActs (st : Option Stats) : List Act :=
  if startupNotice st then
    [Act.notice "index.html" "! your web page won't be visible until we create index.html"]
  else []

/-! ## Filesystem semantics of the emitted acts -/

/-- Effect of an act on an abstract filesystem (path ↦ contents):
`fs.writeFileSync` stores the text, `fs.copyFileSync` stores a
byte-for-byte copy of the source's current contents. -/
def applyFsAct (fsys : List (String × String)) : Act → List (String × String)
  | .write p c => setA fsys p c
  | .copy src dst =>
    match lookupA fsys src with
    | some c => setA fsys dst c
    | none => fsys
  | _ => fsys

def applyFsActs (fsys : List (String × String)) (l : List Act) : List (String × String) :=
  l.foldl applyFsAct fsys

/-- Whether an act writes an output artifact. -/
def isWriteAct : Act → Bool
  | .write _ _ => true
  | _ => false

/-- Only the Sass branch of the handler ever assigns `subprocesses[file]`,
so the registry only ever holds the Sass key. -/
def regOnlySass (s : MState) : Prop :=
  ∀ f id, lookupA s.registry f = some id → f = WFile.sass

/-- Trace for two rapid Sass change events: the second event arrives
while the first build's compiler subprocess is still pending, then the
second build's two stages settle with results `r1` and `r2`. -/
def c2Trace (r1 r2 : Except JsError String) : MState :=
  run MState.init
    [.ev .change .sass (.ok ()), .ev .change .sass (.ok ()), .sProc 1 r1, .sPost 1 r2]

/-! # Lemmas -/

theorem isPre_append_self (pat suf : List Char) : isPre pat (pat ++ suf) = true := by
  induction pat with
  | nil => rfl
  | cons a as ih => simp [isPre, ih]

theorem hasSub_of_isPre {pat l : List Char} (h : isPre pat l = true) :
    hasSub pat l = true := by
  cases l with
  | nil =>
    cases pat with
    | nil => rfl
    | cons a as => simp [isPre] at h
  | cons c t => simp [hasSub, h]

theorem hasSub_middle (pat pre suf : List Char) :
    hasSub pat (pre ++ pat ++ suf) = true := by
  induction pre with
  | nil =>
    simpa using hasSub_of_isPre (isPre_append_self pat suf)
  | cons c pre ih =>
    simp only [List.cons_append, hasSub, List.append_eq, Bool.or_eq_true]
    exact Or.inr ih

theorem data_append (a b : String) : (a ++ b).data = a.data ++ b.data := by
  cases a; cases b; rfl

theorem str_eq_of_data {a b : String} (h : a.data = b.data) : a = b := by
  cases a; cases b
  exact congrArg String.mk h

/-- If `s` decomposes as `pre ++ pat ++ suf` then `pat` occurs in `s`. -/
theorem hasSubS_of_split (pre pat suf : String) :
    hasSubS (pre ++ pat ++ suf) pat = true := by
  unfold hasSubS
  rw [data_append, data_append]
  exact hasSub_middle pat.data pre.data suf.data

/-- The status text of a diagnostic failure contains `error building <fn>`. -/
theorem errText_contains (fn x : String) :
    hasSubS ("× error building " ++ fn ++ "\n " ++ x) ("error building " ++ fn) = true := by
  have h : ("× error building " ++ fn ++ "\n " ++ x : String) =
      "× " ++ ("error building " ++ fn) ++ ("\n " ++ x) := by
    apply str_eq_of_data
    simp only [data_append]
    simp
  rw [h]
  exact hasSubS_of_split _ _ _

/-- The fatal `console.error` text also contains `error building <fn>`. -/
theorem fatalText_contains (fn x : String) :
    hasSubS ("There was an unexpected error building " ++ fn ++ ":\n\n" ++ x)
      ("error building " ++ fn) = true := by
  have h : ("There was an unexpected error building " ++ fn ++ ":\n\n" ++ x : String) =
      "There was an unexpected " ++ ("error building " ++ fn) ++ (":\n\n" ++ x) := by
    apply str_eq_of_data
    simp only [data_append]
    simp
  rw [h]
  exact hasSubS_of_split _ _ _

theorem catchActs_of_canceled (fn : String) {e : JsError} (h : e.isCanceled = true) :
    catchActs fn e = [] := by
  simp [catchActs, h]

theorem catchActs_of_silent (fn : String) {e : JsError} (hc : e.isCanceled = false)
    (hf : e.failed = true) (he : e.stderr = "") (ho : e.stdout = "") :
    catchActs fn e =
      [Act.errLog ("There was an unexpected error building " ++ fn ++ ":\n\n" ++ e.message),
       Act.exitP 1] := by
  simp [catchActs, hc, hf, he, ho]

theorem catchActs_of_diag (fn : String) {e : JsError} (hc : e.isCanceled = false)
    (hd : e.failed = false ∨ e.stderr ≠ "" ∨ e.stdout ≠ "") :
    catchActs fn e =
      [Act.notice fn
        ("× error building " ++ fn ++ "\n " ++ jsOr (jsOr e.stderr e.stdout) e.message)] := by
  have : (e.failed && (decide (e.stderr = "") && decide (e.stdout = ""))) = false := by
    rcases hd with h | h | h <;> simp [h]
  simp [catchActs, hc, this]

/-- Exactly one act of the catch block is terminal, unless the error is a
cancellation, in which case the catch block is silent. -/
theorem catchActs_terminal_count (fn : String) (e : JsError) :
    (catchActs fn e).countP (terminalFor fn) = (if e.isCanceled then 0 else 1) := by
  by_cases hc : e.isCanceled = true
  · simp [catchActs_of_canceled fn hc, hc]
  · have hc' : e.isCanceled = false := by simpa using hc
    by_cases hs : e.failed = true ∧ e.stderr = "" ∧ e.stdout = ""
    · rw [catchActs_of_silent fn hc' hs.1 hs.2.1 hs.2.2]
      simp [hc', terminalFor, fatalText_contains]
    · have hd : e.failed = false ∨ e.stderr ≠ "" ∨ e.stdout ≠ "" := by
        by_cases h1 : e.failed = true
        · by_cases h2 : e.stderr = ""
          · exact Or.inr (Or.inr fun h3 => hs ⟨h1, h2, h3⟩)
          · exact Or.inr (Or.inl h2)
        · exact Or.inl (by simpa using h1)
      rw [catchActs_of_diag fn hc' hd]
      simp [hc', terminalFor, errText_contains]

/-- The success notice is terminal. -/
theorem terminalFor_built (fn : String) :
    terminalFor fn (Act.notice fn ("√ built " ++ fn)) = true := by
  simp [terminalFor]

theorem lookupA_filter_ne {α β : Type} [DecidableEq α] (l : List (α × β)) (k k' : α)
    (h : k' ≠ k) :
    lookupA (l.filter fun p => decide (p.1 ≠ k)) k' = lookupA l k' := by
  induction l with
  | nil => rfl
  | cons p t ih =>
    simp only [List.filter_cons]
    by_cases hp : p.1 = k
    · have hd : decide (p.1 ≠ k) = false := by simp [hp]
      rw [hd]
      simp only [Bool.false_eq_true, if_false]
      rw [ih]
      have hpk : ¬(p.1 = k') := by rw [hp]; exact fun hh => h hh.symm
      simp [lookupA, hpk]
    · have hd : decide (p.1 ≠ k) = true := by simp [hp]
      rw [hd]
      simp only [if_true]
      simp only [lookupA]
      rw [ih]

theorem lookupA_setA_self {α β : Type} [DecidableEq α] (l : List (α × β)) (k : α) (v : β) :
    lookupA (setA l k v) k = some v := by
  simp [setA, lookupA]

theorem lookupA_setA_ne {α β : Type} [DecidableEq α] (l : List (α × β)) (k k' : α) (v : β)
    (h : k' ≠ k) : lookupA (setA l k v) k' = lookupA l k' := by
  have hk : ¬(k = k') := fun hh => h hh.symm
  simp only [setA, lookupA, hk, if_false]
  exact lookupA_filter_ne l k k' h

theorem lookupA_removeA_self {α β : Type} [DecidableEq α] (l : List (α × β)) (k : α) :
    lookupA (removeA l k) k = none := by
  induction l with
  | nil => rfl
  | cons p t ih =>
    simp only [removeA, List.filter_cons] at *
    by_cases hp : p.1 = k
    · have hd : decide (p.1 ≠ k) = false := by simp [hp]
      rw [hd]
      simpa using ih
    · have hd : decide (p.1 ≠ k) = true := by simp [hp]
      rw [hd]
      simp only [if_true, lookupA, hp, if_false]
      exact ih

theorem cancelReg_spinner (s : MState) (f : WFile) :
    (cancelReg s f).spinner = s.spinner := by
  unfold cancelReg
  cases lookupA s.registry f with
  | none => rfl
  | some id =>
    cases h : getTask (applyAct s (.cancelSignal id)) id with
    | none =>
      simp only [applyAct] at h ⊢
      simp [h]
    | some t =>
      simp only [applyAct] at h ⊢
      simp [h, setSlot]

theorem cancelReg_exited (s : MState) (f : WFile) :
    (cancelReg s f).exited = s.exited := by
  unfold cancelReg
  cases lookupA s.registry f with
  | none => rfl
  | some id =>
    cases h : getTask (applyAct s (.cancelSignal id)) id with
    | none =>
      simp only [applyAct] at h ⊢
      simp [h]
    | some t =>
      simp only [applyAct] at h ⊢
      simp [h, setSlot]

/-- The catch block never writes an output artifact. -/
theorem catchActs_no_write (fn : String) (e : JsError) :
    (catchActs fn e).countP isWriteAct = 0 := by
  unfold catchActs
  by_cases hc : e.isCanceled <;>
    by_cases hs : (e.failed && (decide (e.stderr = "") && decide (e.stdout = ""))) = true <;>
      simp [hc, hs, isWriteAct]

theorem isPre_iff (p : List Char) : ∀ l, isPre p l = true ↔ ∃ s, l = p ++ s := by
  induction p with
  | nil =>
    intro l
    simp [isPre]
  | cons a as ih =>
    intro l
    cases l with
    | nil => simp [isPre]
    | cons b bs =>
      simp only [isPre, Bool.and_eq_true, decide_eq_true_eq]
      constructor
      · rintro ⟨rfl, h⟩
        obtain ⟨s, rfl⟩ := (ih bs).1 h
        exact ⟨s, rfl⟩
      · rintro ⟨s, hs⟩
        injection hs with h1 h2
        exact ⟨h1.symm, (ih bs).2 ⟨s, h2⟩⟩

/-- `replaceFirstList` leaves a pattern-free list unchanged, and replaces
exactly the first occurrence otherwise: everything before and after that
occurrence — including any later occurrences — is kept verbatim. -/
theorem replaceFirstList_spec (pat rep : List Char) (hp : pat ≠ []) :
    ∀ l, (hasSub pat l = false → replaceFirstList pat rep l = l) ∧
      (hasSub pat l = true →
        ∃ a b, l = a ++ pat ++ b ∧ replaceFirstList pat rep l = a ++ rep ++ b) := by
  intro l
  induction l with
  | nil =>
    constructor
    · intro _
      rfl
    · intro h
      exfalso
      have hi : pat.isEmpty = true := h
      cases pat with
      | nil => exact hp rfl
      | cons x xs => simp [List.isEmpty] at hi
  | cons c t ih =>
    by_cases hpre : isPre pat (c :: t) = true
    · obtain ⟨s, hs⟩ := (isPre_iff pat (c :: t)).1 hpre
      constructor
      · intro h
        rw [hasSub, hpre] at h
        simp at h
      · intro _
        refine ⟨[], s, by simpa using hs, ?_⟩
        simp only [replaceFirstList, if_pos hpre]
        rw [hs, List.drop_left]
        simp
    · have hpre' : isPre pat (c :: t) = false := by simpa using hpre
      constructor
      · intro h
        have ht : hasSub pat t = false := by
          rw [hasSub, hpre'] at h
          simpa using h
        simp only [replaceFirstList, hpre', Bool.false_eq_true, if_false]
        rw [ih.1 ht]
      · intro h
        have ht : hasSub pat t = true := by
          rw [hasSub, hpre'] at h
          simpa using h
        obtain ⟨a, b, h1, h2⟩ := ih.2 ht
        refine ⟨c :: a, b, by simp [h1], ?_⟩
        simp only [replaceFirstList, hpre', Bool.false_eq_true, if_false]
        simp [h2]

theorem applyAct_registry (s : MState) (a : Act) : (applyAct s a).registry = s.registry := by
  cases a <;> rfl

theorem applyAct_acts (s : MState) (a : Act) : (applyAct s a).acts = s.acts ++ [a] := by
  cases a <;> rfl

theorem applyActs_registry : ∀ (l : List Act) (s : MState),
    (applyActs s l).registry = s.registry := by
  intro l
  induction l with
  | nil => intro s; rfl
  | cons a t ih =>
    intro s
    show (applyActs (applyAct s a) t).registry = s.registry
    rw [ih, applyAct_registry]

theorem cancelReg_registry (s : MState) (f : WFile) :
    (cancelReg s f).registry = s.registry := by
  unfold cancelReg
  cases lookupA s.registry f with
  | none => rfl
  | some id =>
    cases h : getTask (applyAct s (Act.cancelSignal id)) id with
    | none =>
      simp only [applyAct] at h ⊢
      simp [h]
    | some t =>
      simp only [applyAct] at h ⊢
      simp [h, setSlot]

theorem cancelReg_of_none (s : MState) (f : WFile)
    (h : lookupA s.registry f = none) : cancelReg s f = s := by
  unfold cancelReg
  rw [h]

theorem cancelReg_acts_of_some (s : MState) (f : WFile) (id : Nat)
    (h : lookupA s.registry f = some id) :
    (cancelReg s f).acts = s.acts ++ [Act.cancelSignal id] := by
  unfold cancelReg
  rw [h]
  cases hg : getTask (applyAct s (Act.cancelSignal id)) id with
  | none =>
    simp only [applyAct] at hg ⊢
    simp [hg]
  | some t =>
    simp only [applyAct] at hg ⊢
    simp [hg, setSlot]

theorem newTask_registry_false (s : MState) (f : WFile) (st : Stage) :
    (newTask s f st false).registry = s.registry := by
  simp [newTask, applyAct_registry]

theorem newTask_registry_true (s : MState) (f : WFile) (st : Stage) :
    (newTask s f st true).registry = setA s.registry f s.tasks.length := by
  simp [newTask, applyAct_registry]

theorem newTask_acts (s : MState) (f : WFile) (st : Stage) (b : Bool) :
    (newTask s f st b).acts = s.acts ++ [Act.spawn s.tasks.length] := by
  cases b <;> simp [newTask, applyAct_acts]

/-- The registry of any state reached by the machine holds, at most, the
Sass key: only the Sass pipeline assigns `subprocesses[file]`. -/
theorem evStep_reg (s : MState) (k : EventKind) (f : WFile) (c : Except JsError Unit) :
    ∃ r, (evStep s k f c).registry = s.registry ∨
      (evStep s k f c).registry = setA s.registry WFile.sass r := by
  by_cases hex : s.exited = true
  · exact ⟨0, Or.inl (by simp [evStep, hex])⟩
  · have hex' : s.exited = false := by simpa using hex
    set s1 := applyAct s (Act.notice (fileName f) ("- building " ++ fileName f)) with hs1
    set s2 := cancelReg s1 f with hs2
    have hreg2 : s2.registry = s.registry := by
      rw [hs2, cancelReg_registry, hs1, applyAct_registry]
    refine ⟨s2.tasks.length, ?_⟩
    simp only [evStep, hex', Bool.false_eq_true, if_false]
    rw [← hs1, ← hs2]
    by_cases h1 : (f = WFile.sass ∨ f = WFile.js) ∧ k = EventKind.unlink
    · rw [if_pos h1]
      exact Or.inl (by rw [applyAct_registry, hreg2])
    · rw [if_neg h1]
      by_cases h2 : f = WFile.html ∧ k = EventKind.unlink
      · rw [if_pos h2]
        exact Or.inl (by rw [applyAct_registry, hreg2])
      · rw [if_neg h2]
        cases f with
        | sass =>
          right
          rw [newTask_registry_true, hreg2]
        | js =>
          left
          rw [newTask_registry_false, hreg2]
        | html =>
          left
          cases c with
          | ok u => rw [applyAct_registry, applyAct_registry, hreg2]
          | error e => rw [applyActs_registry, hreg2]

theorem sProcStep_registry (s : MState) (id : Nat) (res : Except JsError String) :
    (sProcStep s id res).registry = s.registry := by
  unfold sProcStep
  split
  · rfl
  · split
    · split
      · split
        · rfl
        · split
          · rfl
          · rw [applyActs_registry]
            rfl
      · rfl
    · rfl

theorem sPostStep_registry (s : MState) (id : Nat) (res : Except JsError String) :
    (sPostStep s id res).registry = s.registry := by
  unfold sPostStep
  split
  · rfl
  · split
    · split
      · split
        · rw [applyAct_registry, applyAct_registry]
          rfl
        · rw [applyActs_registry]
          rfl
      · rfl
    · rfl

theorem jsDoneStep_registry (s : MState) (id : Nat) (res : Except JsError Unit) :
    (jsDoneStep s id res).registry = s.registry := by
  unfold jsDoneStep
  split
  · rfl
  · split
    · split
      · split
        · rw [applyAct_registry]
          rfl
        · rw [applyActs_registry]
          rfl
      · rfl
    · rfl

theorem regOnlySass_mstep (s : MState) (st : MStep) (h : regOnlySass s) :
    regOnlySass (mstep s st) := by
  cases st with
  | ev k f c =>
    obtain ⟨r, hr | hr⟩ := evStep_reg s k f c
    · intro f' i hl
      rw [show mstep s (.ev k f c) = evStep s k f c from rfl, hr] at hl
      exact h f' i hl
    · intro f' i hl
      rw [show mstep s (.ev k f c) = evStep s k f c from rfl, hr] at hl
      by_cases hf : f' = WFile.sass
      · exact hf
      · rw [lookupA_setA_ne _ _ _ _ hf] at hl
        exact h f' i hl
  | sProc id r =>
    intro f' i hl
    rw [show mstep s (.sProc id r) = sProcStep s id r from rfl, sProcStep_registry] at hl
    exact h f' i hl
  | sPost id r =>
    intro f' i hl
    rw [show mstep s (.sPost id r) = sPostStep s id r from rfl, sPostStep_registry] at hl
    exact h f' i hl
  | jsDone id r =>
    intro f' i hl
    rw [show mstep s (.jsDone id r) = jsDoneStep s id r from rfl, jsDoneStep_registry] at hl
    exact h f' i hl

theorem regOnlySass_run (l : List MStep) : regOnlySass (run MState.init l) := by
  have hgen : ∀ s, regOnlySass s → regOnlySass (run s l) := by
    induction l with
    | nil => intro s hs; exact hs
    | cons st t ih =>
      intro s hs
      exact ih _ (regOnlySass_mstep s st hs)
  exact hgen _ (by intro f i hl; cases hl)

theorem isCancelAct_notice (f t : String) : isCancelAct (Act.notice f t) = false := rfl

theorem isCancelAct_remove (f : String) : isCancelAct (Act.removeNotice f) = false := rfl

theorem isCancelAct_spawn (i : Nat) : isCancelAct (Act.spawn i) = false := rfl

theorem setSlot_acts (s : MState) (id : Nat) (t : Option BTask) :
    (setSlot s id t).acts = s.acts := rfl

theorem clearTask_acts (s : MState) (id : Nat) : (clearTask s id).acts = s.acts := rfl

theorem applyActs_singleton (s : MState) (a : Act) : applyActs s [a] = applyAct s a := rfl

theorem terminalFor_write (fn p c : String) : terminalFor fn (Act.write p c) = false := rfl

theorem terminalFor_errtext (fn x : String) :
    terminalFor fn (Act.notice fn ("× error building " ++ fn ++ "\n " ++ x)) = true := by
  simp [terminalFor, errText_contains]

theorem terminalFor_errtext_scss (x : String) :
    terminalFor "src/main.scss"
      (Act.notice "src/main.scss" ("× error building src/main.scss\n " ++ x)) = true := by
  have h : ("× error building src/main.scss\n " ++ x : String) =
      "× error building " ++ "src/main.scss" ++ "\n " ++ x := by
    apply str_eq_of_data
    simp [data_append]
  rw [h]
  exact terminalFor_errtext "src/main.scss" x

theorem terminalFor_built_scss :
    terminalFor "src/main.scss" (Act.notice "src/main.scss" "√ built src/main.scss") = true := by
  decide

/-! # Claims -/

/-- Claim C5: for every build whose pipeline settles with a cancellation
signal, the handler produces no observable effect — the catch block emits
nothing (no status change, no log, no exit), and on the dispatcher
machine a cancelled Sass subprocess settling leaves the act log, the
status display and the liveness of the process unchanged, whatever result
the pipeline resolved with. -/
theorem cancelled_build_discarded (fn : String) (e : JsError) (h : e.isCanceled = true) :
    catchActs fn e = [] ∧
    ∀ (s : MState) (id : Nat) (t : BTask) (res : Except JsError String),
      getTask s id = some t → t.file = .sass → t.stage = .sassProc → t.canceled = true →
      (sProcStep s id res).acts = s.acts ∧
        (sProcStep s id res).spinner = s.spinner ∧
        (sProcStep s id res).exited = s.exited := by
  refine ⟨catchActs_of_canceled fn h, ?_⟩
  intro s id t res hget hf hst hcanc
  by_cases hex : s.exited = true
  · simp [sProcStep, hex]
  · have hex' : s.exited = false := by simpa using hex
    simp [sProcStep, hex', hget, hf, hst, hcanc, clearTask, setSlot]

/-- Claim C5 witness. -/
theorem cancelled_build_discarded_witness :
    catchActs "src/main.scss" { isCanceled := true, stderr := "text" } = [] :=
  (cancelled_build_discarded "src/main.scss" { isCanceled := true, stderr := "text" } rfl).1

/-- Claim C4: with cancellations set aside (they are not failures), the
catch block exits the process with status 1 exactly when the error is a
silent tool failure — `failed` with empty `stderr` and empty `stdout` —
and any failure carrying diagnostic output on stdout or stderr is shown
as a single status-line update, the process remaining live. -/
theorem exit_iff_silent_failure (fn : String) (e : JsError) (h : e.isCanceled = false) :
    (Act.exitP 1 ∈ catchActs fn e ↔ e.failed = true ∧ e.stderr = "" ∧ e.stdout = "") ∧
    (e.stderr ≠ "" ∨ e.stdout ≠ "" →
      ∃ t, catchActs fn e = [Act.notice fn t]) := by
  constructor
  · constructor
    · intro hmem
      by_cases hs : e.failed = true ∧ e.stderr = "" ∧ e.stdout = ""
      · exact hs
      · exfalso
        have hd : e.failed = false ∨ e.stderr ≠ "" ∨ e.stdout ≠ "" := by
          by_cases h1 : e.failed = true
          · by_cases h2 : e.stderr = ""
            · exact Or.inr (Or.inr fun h3 => hs ⟨h1, h2, h3⟩)
            · exact Or.inr (Or.inl h2)
          · exact Or.inl (by simpa using h1)
        rw [catchActs_of_diag fn h hd] at hmem
        simp at hmem
    · intro hs
      rw [catchActs_of_silent fn h hs.1 hs.2.1 hs.2.2]
      simp
  · intro hd
    exact ⟨_, catchActs_of_diag fn h (Or.inr hd)⟩

/-- Claim C4 witness: a silent execa failure exits with status 1. -/
theorem exit_iff_silent_failure_witness :
    Act.exitP 1 ∈ catchActs "src/main.scss" { failed := true, message := "spawn failed" } :=
  (exit_iff_silent_failure "src/main.scss" { failed := true, message := "spawn failed" }
    rfl).1.mpr ⟨rfl, rfl, rfl⟩

/-- Claim C3: on an add or change event for any watched path, the handler
first emits the `- building P` status and then exactly one terminal
status — `√ built P` on success, or a status or error line containing
`error building P` on failure — unless the build was cancelled, in which
case no terminal status follows. -/
theorem build_status_protocol (k : EventKind) (f : WFile) (env : BuildEnv)
    (hk : k = .add ∨ k = .change) :
    ∃ rest, runBuild k f env =
        Act.notice (fileName f) ("- building " ++ fileName f) :: rest ∧
      rest.countP (terminalFor (fileName f)) = (if buildCanceled f env then 0 else 1) := by
  have hku : k ≠ .unlink := by rcases hk with h | h <;> simp [h]
  cases f with
  | sass =>
    cases hres : env.sassRes with
    | error e =>
      refine ⟨catchActs (fileName .sass) e, ?_, ?_⟩
      · simp [runBuild, hku, hres]
      · simp [buildCanceled, overallErr, hres, catchActs_terminal_count]
    | ok css =>
      cases hpost : env.postRes (fixCharset css) with
      | error e =>
        refine ⟨catchActs (fileName .sass) e, ?_, ?_⟩
        · simp [runBuild, hku, hres, hpost]
        · simp [buildCanceled, overallErr, hres, hpost, catchActs_terminal_count]
      | ok out =>
        refine ⟨[Act.write "public/main.css" out,
          Act.notice (fileName .sass) ("√ built " ++ fileName .sass)], ?_, ?_⟩
        · simp [runBuild, hku, hres, hpost]
        · simp [buildCanceled, overallErr, hres, hpost, terminalFor_built, terminalFor]
  | js =>
    cases hres : env.jsRes with
    | error e =>
      refine ⟨catchActs (fileName .js) e, ?_, ?_⟩
      · simp [runBuild, hku, hres]
      · simp [buildCanceled, overallErr, hres, catchActs_terminal_count]
    | ok u =>
      refine ⟨[Act.notice (fileName .js) ("√ built " ++ fileName .js)], ?_, ?_⟩
      · simp [runBuild, hku, hres]
      · simp [buildCanceled, overallErr, hres, terminalFor_built]
  | html =>
    cases hres : env.copyRes with
    | error e =>
      refine ⟨catchActs (fileName .html) (mapCopyError e), ?_, ?_⟩
      · simp [runBuild, hku, hres]
      · simp [buildCanceled, overallErr, hres, catchActs_terminal_count]
    | ok u =>
      refine ⟨[Act.copy "index.html" "public/index.html",
        Act.notice (fileName .html) ("√ built " ++ fileName .html)], ?_, ?_⟩
      · simp [runBuild, hku, hres]
      · simp [buildCanceled, overallErr, hres, terminalFor_built, terminalFor]

/-- Claim C3 witness: a successful JS change event yields exactly one
terminal status after the building notice. -/
theorem build_status_protocol_witness :
    (runBuild EventKind.change WFile.js
        ⟨Except.ok "", fun s => Except.ok s, Except.ok (), Except.ok ()⟩).countP
      (terminalFor "src/main.js") = 1 := by
  obtain ⟨rest, h1, h2⟩ := build_status_protocol EventKind.change WFile.js
    ⟨Except.ok "", fun s => Except.ok s, Except.ok (), Except.ok ()⟩ (Or.inr rfl)
  rw [h1, List.countP_cons]
  have hb : terminalFor "src/main.js"
      (Act.notice (fileName WFile.js) ("- building " ++ fileName WFile.js)) = false := by
    decide
  have hfn : fileName WFile.js = "src/main.js" := rfl
  rw [hfn] at h2
  rw [hb, h2]
  simp [buildCanceled, overallErr]

/-- Claim C10: at startup the missing-index notice is emitted exactly
when no regular file named `index.html` exists — also when the
filesystem entry exists but is not a regular file. -/
theorem startup_notice_iff (st : Option Stats) :
    startupActs st =
        [Act.notice "index.html"
          "! your web page won't be visible until we create index.html"] ↔
      ¬ ∃ stats, st = some stats ∧ stats.isFile = true := by
  cases st with
  | none => simp [startupActs, startupNotice]
  | some stats =>
    cases h : stats.isFile <;> simp [startupActs, startupNotice, h]

/-- Claim C10 witness: an `index.html` directory entry (not a regular
file) triggers the startup notice. -/
theorem startup_notice_iff_witness :
    startupActs (some ⟨false⟩) =
      [Act.notice "index.html"
        "! your web page won't be visible until we create index.html"] :=
  (startup_notice_iff (some ⟨false⟩)).mpr (by simp)

/-- Claim C6: an unlink event for the Sass or JS source removes that
path's status line entirely, and an unlink event for the HTML source sets
its status line to the missing-index notice; in both cases no pipeline
runs — the handler's acts are a fixed list independent of every pipeline
result, with no write, copy or spawn. -/
theorem unlink_behavior (env : BuildEnv) :
    (∀ f, f = WFile.sass ∨ f = WFile.js →
      runBuild .unlink f env =
        [Act.notice (fileName f) ("- building " ++ fileName f),
         Act.removeNotice (fileName f)]) ∧
    runBuild .unlink .html env =
      [Act.notice (fileName .html) ("- building " ++ fileName .html),
       Act.notice (fileName .html) "! missing index.html"] ∧
    (∀ (s : MState) (c : Except JsError Unit) (f : WFile), s.exited = false →
      (f = WFile.sass ∨ f = WFile.js →
        lookupA (evStep s .unlink f c).spinner (fileName f) = none) ∧
      lookupA (evStep s .unlink .html c).spinner (fileName .html) =
        some "! missing index.html") := by
  refine ⟨?_, ?_, ?_⟩
  · rintro f (rfl | rfl) <;> simp [runBuild]
  · simp [runBuild]
  · intro s c f hex
    constructor
    · rintro (rfl | rfl) <;>
      · simp only [evStep, hex, Bool.false_eq_true, if_false]
        rw [if_pos (by simp)]
        simp [applyAct, cancelReg_spinner, lookupA_removeA_self]
    · simp only [evStep, hex, Bool.false_eq_true, if_false]
      rw [if_neg (by simp), if_pos (by simp)]
      simp [applyAct, cancelReg_spinner, lookupA_setA_self]

/-- Claim C6 witness: unlinking the Sass source yields the building
notice followed by removal of its status line. -/
theorem unlink_behavior_witness :
    runBuild EventKind.unlink WFile.sass
        ⟨Except.ok "", fun s => Except.ok s, Except.ok (), Except.ok ()⟩ =
      [Act.notice "src/main.scss" ("- building " ++ "src/main.scss"),
       Act.removeNotice "src/main.scss"] :=
  (unlink_behavior ⟨Except.ok "", fun s => Except.ok s, Except.ok (), Except.ok ()⟩).1
    WFile.sass (Or.inl rfl)

/-- Claim C7: the HTML pipeline copies the entry byte-for-byte to
`public/index.html`; a copy failure with code `ENOTSUP` on path
`index.html` (the source is not a regular file) is surfaced as the clear
`Could not copy "index.html". Is it a file?` diagnostic on the status
line, and every other copy error passes through the mapping verbatim and
is handled by the ordinary catch block. -/
theorem html_copy_semantics :
    (∀ (fsys : List (String × String)) (env : BuildEnv) (content : String),
      env.copyRes = Except.ok () →
      lookupA fsys "index.html" = some content →
      lookupA (applyFsActs fsys (runBuild .change .html env)) "public/index.html" =
        some content) ∧
    (∀ (e : JsError) (env : BuildEnv), e.code = "ENOTSUP" → e.path = "index.html" →
      env.copyRes = Except.error e →
      runBuild .change .html env =
        [Act.notice (fileName .html) ("- building " ++ fileName .html),
         Act.notice (fileName .html)
           ("× error building " ++ fileName .html ++ "\n " ++
             "Could not copy \"index.html\". Is it a file?")]) ∧
    (∀ e : JsError, ¬(e.code = "ENOTSUP" ∧ e.path = "index.html") →
      mapCopyError e = e ∧
      ∀ env : BuildEnv, env.copyRes = Except.error e →
        runBuild .change .html env =
          Act.notice (fileName .html) ("- building " ++ fileName .html) ::
            catchActs (fileName .html) e) := by
  refine ⟨?_, ?_, ?_⟩
  · intro fsys env content hok hlook
    simp only [runBuild, hok]
    simp only [applyFsActs, List.foldl]
    simp [applyFsAct, hlook, lookupA_setA_self]
  · intro e env hcode hpath herr
    have hmap : mapCopyError e = { message := "Could not copy \"index.html\". Is it a file?" } := by
      simp [mapCopyError, hcode, hpath]
    simp only [runBuild, herr, hmap]
    simp [catchActs, jsOr]
  · intro e hne
    have hmap : mapCopyError e = e := by simp [mapCopyError, hne]
    refine ⟨hmap, ?_⟩
    intro env herr
    simp [runBuild, herr, hmap]

/-- Claim C7 witness: a successful copy leaves `public/index.html` equal
to the watched `index.html`. -/
theorem html_copy_semantics_witness :
    lookupA
        (applyFsActs [("index.html", "<p>hi</p>")]
          (runBuild .change .html ⟨Except.ok "", fun s => Except.ok s, Except.ok (), Except.ok ()⟩))
        "public/index.html" = some "<p>hi</p>" :=
  html_copy_semantics.1 [("index.html", "<p>hi</p>")]
    ⟨Except.ok "", fun s => Except.ok s, Except.ok (), Except.ok ()⟩ "<p>hi</p>" rfl rfl

/-- Claim C8: the Sass pipeline writes `public/main.css` only after both
the compiler and the PostCSS pass succeed — on any failure of either
step no write act is emitted, the existing artifact is untouched, and
(for a non-cancelled diagnostic failure) the single status update
contains `error building src/main.scss`. -/
theorem sass_failure_writes_nothing (env : BuildEnv) :
    (∀ css out, env.sassRes = .ok css → env.postRes (fixCharset css) = .ok out →
      runBuild .change .sass env =
        [Act.notice (fileName .sass) ("- building " ++ fileName .sass),
         Act.write "public/main.css" out,
         Act.notice (fileName .sass) ("√ built " ++ fileName .sass)]) ∧
    (∀ e, overallErr .sass env = some e →
      (runBuild .change .sass env).countP isWriteAct = 0 ∧
      (e.isCanceled = false → e.failed = false ∨ e.stderr ≠ "" ∨ e.stdout ≠ "" →
        ∃ t, runBuild .change .sass env =
            [Act.notice (fileName .sass) ("- building " ++ fileName .sass),
             Act.notice (fileName .sass) t] ∧
          hasSubS t ("error building " ++ fileName .sass) = true)) := by
  constructor
  · intro css out hres hpost
    simp [runBuild, hres, hpost]
  · intro e hoe
    cases hres : env.sassRes with
    | error e' =>
      have he : e' = e := by
        simpa [overallErr, hres] using hoe
      subst he
      constructor
      · simp [runBuild, hres, List.countP_cons, isWriteAct, catchActs_no_write]
      · intro hc hd
        refine ⟨"× error building " ++ fileName .sass ++ "\n " ++
            jsOr (jsOr e'.stderr e'.stdout) e'.message, ?_, errText_contains _ _⟩
        simp [runBuild, hres, catchActs_of_diag _ hc hd]
    | ok css =>
      cases hpost : env.postRes (fixCharset css) with
      | error e' =>
        have he : e' = e := by
          simpa [overallErr, hres, hpost] using hoe
        subst he
        constructor
        · simp [runBuild, hres, hpost, List.countP_cons, isWriteAct, catchActs_no_write]
        · intro hc hd
          refine ⟨"× error building " ++ fileName .sass ++ "\n " ++
              jsOr (jsOr e'.stderr e'.stdout) e'.message, ?_, errText_contains _ _⟩
          simp [runBuild, hres, hpost, catchActs_of_diag _ hc hd]
      | ok out =>
        exfalso
        simp [overallErr, hres, hpost] at hoe

/-- Claim C8 witness: a compiler failure with diagnostic output writes
nothing and reports an error status for `src/main.scss`. -/
theorem sass_failure_writes_nothing_witness :
    (runBuild .change .sass
        ⟨Except.error { failed := true, stderr := "parse error" },
          fun s => Except.ok s, Except.ok (), Except.ok ()⟩).countP isWriteAct = 0 :=
  ((sass_failure_writes_nothing
      ⟨Except.error { failed := true, stderr := "parse error" },
        fun s => Except.ok s, Except.ok (), Except.ok ()⟩).2
    { failed := true, stderr := "parse error" } rfl).1

/-- Claim C9 counterexample: a compiler CSS text containing the
`application/json;charset=utf-8,` declaration twice still contains it
after the workaround — JavaScript's `String.replace` with a string
pattern rewrites only the first occurrence, so the post-processed input
can still contain the rejected parameter. -/
theorem charset_fix_counterexample :
    hasSubS
        (fixCharset
          "application/json;charset=utf-8,application/json;charset=utf-8,")
        charsetPat = true := by
  decide

/-- Claim C9 amended: the pipeline strips only the first occurrence of
the `charset=utf-8` MIME declaration from the compiler's CSS: text with
no occurrence passes through unchanged, and otherwise exactly the first
occurrence is rewritten to `application/json,` with the remainder of the
text — including any later occurrences — kept verbatim. -/
theorem charset_fix_first_occurrence (css : String) :
    (hasSubS css charsetPat = false → fixCharset css = css) ∧
    (hasSubS css charsetPat = true →
      ∃ a b : List Char, css.data = a ++ charsetPat.data ++ b ∧
        (fixCharset css).data = a ++ charsetRep.data ++ b) := by
  have hp : charsetPat.data ≠ [] := by decide
  have h := replaceFirstList_spec charsetPat.data charsetRep.data hp css.data
  constructor
  · intro hf
    apply str_eq_of_data
    simpa [fixCharset] using h.1 hf
  · intro ht
    obtain ⟨a, b, h1, h2⟩ := h.2 ht
    exact ⟨a, b, h1, by simpa [fixCharset] using h2⟩

/-- Claim C9 amended witness: pattern-free CSS is unchanged. -/
theorem charset_fix_first_occurrence_witness :
    fixCharset "body color red" = "body color red" :=
  (charset_fix_first_occurrence "body color red").1 (by decide)

/-- Claim C1 counterexample: two rapid change events for the JS path
leave two live build tasks for `src/main.js` and the dispatcher emits no
cancellation signal at all — `subprocesses[file]` is only ever assigned
in the Sass branch, so no prior JS build is ever cancelled. -/
theorem cancellation_not_for_js :
    liveTasks (run MState.init
        [.ev .change .js (.ok ()), .ev .change .js (.ok ())]) WFile.js = 2 ∧
    (run MState.init
        [.ev .change .js (.ok ()), .ev .change .js (.ok ())]).acts.countP
      isCancelAct = 0 := by
  exact ⟨rfl, rfl⟩

/-- Claim C1 amended: cancellation applies only to the Sass pipeline.  In
every reachable dispatcher state the `subprocesses` registry holds at
most the Sass key; an event for the Sass path with a registered
subprocess signals cancellation to it immediately after the building
notice and before anything else (in particular before the new pipeline is
spawned); an event for the JS path signals no cancellation and leaves the
registry unchanged, so concurrent JS builds are possible. -/
theorem dispatcher_cancels_only_sass (steps : List MStep) (s : MState)
    (hs : s = run MState.init steps) (k : EventKind) (c : Except JsError Unit)
    (hex : s.exited = false) (id : Nat)
    (hid : lookupA s.registry WFile.sass = some id) :
    (∀ f i, lookupA s.registry f = some i → f = WFile.sass) ∧
    (∃ rest, (evStep s k WFile.sass c).acts =
      s.acts ++ Act.notice "src/main.scss" ("- building " ++ "src/main.scss") ::
        Act.cancelSignal id :: rest) ∧
    (evStep s k WFile.js c).acts.countP isCancelAct = s.acts.countP isCancelAct ∧
    (evStep s k WFile.js c).registry = s.registry := by
  have hinv : regOnlySass s := hs ▸ regOnlySass_run steps
  have hfn : fileName WFile.sass = "src/main.scss" := rfl
  have hl1 : lookupA (applyAct s (Act.notice (fileName WFile.sass)
      ("- building " ++ fileName WFile.sass))).registry WFile.sass = some id := by
    rw [applyAct_registry]
    exact hid
  have hjs : lookupA s.registry WFile.js = none := by
    cases hj : lookupA s.registry WFile.js with
    | none => rfl
    | some i => exact absurd (hinv _ _ hj) (by simp)
  have hcr : cancelReg (applyAct s (Act.notice (fileName WFile.js)
      ("- building " ++ fileName WFile.js))) WFile.js =
      applyAct s (Act.notice (fileName WFile.js) ("- building " ++ fileName WFile.js)) := by
    apply cancelReg_of_none
    rw [applyAct_registry]
    exact hjs
  refine ⟨hinv, ?_, ?_, ?_⟩
  · by_cases hk : k = EventKind.unlink
    · refine ⟨[Act.removeNotice "src/main.scss"], ?_⟩
      subst hk
      simp only [evStep, hex, Bool.false_eq_true, if_false]
      rw [if_pos (by simp)]
      rw [applyAct_acts, cancelReg_acts_of_some _ _ _ hl1, applyAct_acts]
      simp [hfn]
    · refine ⟨[Act.spawn (cancelReg (applyAct s (Act.notice (fileName WFile.sass)
        ("- building " ++ fileName WFile.sass))) WFile.sass).tasks.length], ?_⟩
      simp only [evStep, hex, Bool.false_eq_true, if_false]
      rw [if_neg (by simp [hk]), if_neg (by simp)]
      rw [newTask_acts, cancelReg_acts_of_some _ _ _ hl1, applyAct_acts]
      simp [hfn]
  · by_cases hk : k = EventKind.unlink
    · subst hk
      simp only [evStep, hex, Bool.false_eq_true, if_false]
      rw [if_pos (by simp), hcr, applyAct_acts, applyAct_acts]
      simp [List.countP_append, List.countP_cons, isCancelAct_notice, isCancelAct_remove]
    · simp only [evStep, hex, Bool.false_eq_true, if_false]
      rw [if_neg (by simp [hk]), if_neg (by simp), hcr, newTask_acts, applyAct_acts]
      simp [List.countP_append, List.countP_cons, isCancelAct_notice, isCancelAct_spawn]
  · by_cases hk : k = EventKind.unlink
    · subst hk
      simp only [evStep, hex, Bool.false_eq_true, if_false]
      rw [if_pos (by simp), hcr, applyAct_registry, applyAct_registry]
    · simp only [evStep, hex, Bool.false_eq_true, if_false]
      rw [if_neg (by simp [hk]), if_neg (by simp), hcr, newTask_registry_false,
        applyAct_registry]

/-- Claim C1 amended witness: after one Sass change event the registry
holds task 0, and a JS event on that state signals no cancellation. -/
theorem dispatcher_cancels_only_sass_witness :
    (evStep (run MState.init [.ev .change .sass (.ok ())]) EventKind.change WFile.js
        (.ok ())).acts.countP isCancelAct =
      (run MState.init [.ev .change .sass (.ok ())]).acts.countP isCancelAct :=
  (dispatcher_cancels_only_sass [.ev .change .sass (.ok ())] _ rfl EventKind.change
    (.ok ()) (by decide) 0 (by decide)).2.2.1

/-- Claim C2 counterexample: two rapid JS change events whose builds
settle out of order produce two terminal status updates, and the status
line ends showing the first event's build outcome (an error), not the
second's (a success) — JS builds are never cancelled, so the stale
result overwrites the status line. -/
theorem second_build_overwritten_by_first :
    (run MState.init
        [.ev .change .js (.ok ()), .ev .change .js (.ok ()),
         .jsDone 1 (.ok ()), .jsDone 0 (.error { failed := true, stderr := "boom" })]).acts.countP
      (terminalFor "src/main.js") = 2 ∧
    lookupA (run MState.init
        [.ev .change .js (.ok ()), .ev .change .js (.ok ()),
         .jsDone 1 (.ok ()), .jsDone 0 (.error { failed := true, stderr := "boom" })]).spinner
      "src/main.js" = some "× error building src/main.js\n boom" := by
  exact ⟨by decide, by decide⟩

/-- Claim C2 amended: the single-terminal-update guarantee holds for the
Sass pipeline when the second change event arrives while the first
build's compiler subprocess is still pending: the whole trace shows
exactly one terminal status update, it reflects the second build's
outcome (success or diagnostic failure in either stage), and the first
build's later settlement has no observable effect.  The guarantee does
not extend to the JS pipeline, whose builds are never cancelled. -/
theorem sass_superseded_single_status (r1 r2 o : Except JsError String)
    (h1 : ∀ e, r1 = .error e →
      e.isCanceled = false ∧ (e.failed = false ∨ e.stderr ≠ "" ∨ e.stdout ≠ ""))
    (h2 : ∀ e, r2 = .error e →
      e.isCanceled = false ∧ (e.failed = false ∨ e.stderr ≠ "" ∨ e.stdout ≠ "")) :
    (sProcStep (c2Trace r1 r2) 0 o).acts = (c2Trace r1 r2).acts ∧
    (sProcStep (c2Trace r1 r2) 0 o).spinner = (c2Trace r1 r2).spinner ∧
    (sProcStep (c2Trace r1 r2) 0 o).exited = (c2Trace r1 r2).exited ∧
    (c2Trace r1 r2).acts.countP (terminalFor "src/main.scss") = 1 ∧
    (∀ css out, r1 = .ok css → r2 = .ok out →
      lookupA (c2Trace r1 r2).spinner "src/main.scss" =
        some ("√ built " ++ "src/main.scss")) ∧
    (∀ e, r1 = .error e →
      lookupA (c2Trace r1 r2).spinner "src/main.scss" =
        some ("× error building " ++ "src/main.scss" ++ "\n " ++
          jsOr (jsOr e.stderr e.stdout) e.message)) ∧
    (∀ css e, r1 = .ok css → r2 = .error e →
      lookupA (c2Trace r1 r2).spinner "src/main.scss" =
        some ("× error building " ++ "src/main.scss" ++ "\n " ++
          jsOr (jsOr e.stderr e.stdout) e.message)) := by
  cases r1 with
  | error e1 =>
    obtain ⟨hc1, hd1⟩ := h1 e1 rfl
    have hca1 := catchActs_of_diag "src/main.scss" hc1 hd1
    have hstep : c2Trace (.error e1) r2 =
        applyAct
          (clearTask (run MState.init
            [.ev .change .sass (.ok ()), .ev .change .sass (.ok ())]) 1)
          (Act.notice "src/main.scss"
            ("× error building " ++ "src/main.scss" ++ "\n " ++
              jsOr (jsOr e1.stderr e1.stdout) e1.message)) := by
      rw [show c2Trace (.error e1) r2 =
        sPostStep (applyActs
          (clearTask (run MState.init
            [.ev .change .sass (.ok ()), .ev .change .sass (.ok ())]) 1)
          (catchActs "src/main.scss" e1)) 1 r2 from rfl]
      rw [hca1]
      rfl
    rw [hstep]
    refine ⟨rfl, rfl, rfl, ?_, ?_, ?_, ?_⟩
    · rw [applyAct_acts, clearTask_acts, List.countP_append]
      rw [show (run MState.init
        [.ev .change .sass (.ok ()), .ev .change .sass (.ok ())]).acts.countP
          (terminalFor "src/main.scss") = 0 from by decide]
      simp [List.countP_cons, terminalFor_errtext_scss]
    · intro css out hcss
      simp at hcss
    · intro e he
      injection he with he'
      subst he'
      exact lookupA_setA_self _ _ _
    · intro css e hcss
      simp at hcss
  | ok css =>
    cases r2 with
    | ok out =>
      have hstep : c2Trace (.ok css) (.ok out) =
          applyAct
            (applyAct
              (clearTask (setSlot (run MState.init
                [.ev .change .sass (.ok ()), .ev .change .sass (.ok ())]) 1
                (some ⟨WFile.sass, Stage.sassPost, false⟩)) 1)
              (Act.write "public/main.css" out))
            (Act.notice "src/main.scss" ("√ built " ++ "src/main.scss")) := rfl
      rw [hstep]
      refine ⟨rfl, rfl, rfl, ?_, ?_, ?_, ?_⟩
      · rw [applyAct_acts, applyAct_acts, clearTask_acts, setSlot_acts,
          List.countP_append, List.countP_append]
        rw [show (run MState.init
          [.ev .change .sass (.ok ()), .ev .change .sass (.ok ())]).acts.countP
            (terminalFor "src/main.scss") = 0 from by decide]
        simp [List.countP_cons, terminalFor_write, terminalFor_built_scss]
      · intro css' out' _ _
        exact lookupA_setA_self _ _ _
      · intro e he
        simp at he
      · intro css' e _ he
        simp at he
    | error e2 =>
      obtain ⟨hc2, hd2⟩ := h2 e2 rfl
      have hca2 := catchActs_of_diag "src/main.scss" hc2 hd2
      have hstep : c2Trace (.ok css) (.error e2) =
          applyAct
            (clearTask (setSlot (run MState.init
              [.ev .change .sass (.ok ()), .ev .change .sass (.ok ())]) 1
              (some ⟨WFile.sass, Stage.sassPost, false⟩)) 1)
            (Act.notice "src/main.scss"
              ("× error building " ++ "src/main.scss" ++ "\n " ++
                jsOr (jsOr e2.stderr e2.stdout) e2.message)) := by
        rw [show c2Trace (.ok css) (.error e2) =
          applyActs
            (clearTask (setSlot (run MState.init
              [.ev .change .sass (.ok ()), .ev .change .sass (.ok ())]) 1
              (some ⟨WFile.sass, Stage.sassPost, false⟩)) 1)
            (catchActs "src/main.scss" e2) from rfl]
        rw [hca2]
        rfl
      rw [hstep]
      refine ⟨rfl, rfl, rfl, ?_, ?_, ?_, ?_⟩
      · rw [applyAct_acts, clearTask_acts, setSlot_acts, List.countP_append]
        rw [show (run MState.init
          [.ev .change .sass (.ok ()), .ev .change .sass (.ok ())]).acts.countP
            (terminalFor "src/main.scss") = 0 from by decide]
        simp [List.countP_cons, terminalFor_errtext_scss]
      · intro css' out hcss hout
        simp at hout
      · intro e he
        simp at he
      · intro css' e hcss he
        injection he with he'
        subst he'
        exact lookupA_setA_self _ _ _

/-- Claim C2 amended witness: with both stages of the second build
succeeding, the trace shows exactly one terminal status update. -/
theorem sass_superseded_single_status_witness :
    (c2Trace (.ok "a") (.ok "b")).acts.countP (terminalFor "src/main.scss") = 1 :=
  (sass_superseded_single_status (.ok "a") (.ok "b") (.ok "c")
    (fun e h => by simp at h) (fun e h => by simp at h)).2.2.2.1

end Origami
